import Mathlib

/-
Verification of the padz client library (src/apis/padz.py).

The library shells out to the external padz CLI tool. Its observable behavior
is: build an argument vector, spawn the tool as a subprocess (optionally with
stdin text), and translate the captured exit code / stdout / stderr into either
the raw stdout string or a raised exception. We embed that behavior shallowly:
the subprocess world is a function (a Runner) from the spawned command and
stdin text to an outcome, and every operation returns both its Python result
(success value or raised exception) and the list of spawn calls it performed.
-/

set_option autoImplicit false

/-- JSON values as produced by the Python json module. Numbers are restricted
to integers (floating-point payloads never occur in this client's contract);
objects are key-value lists in document order, with a later duplicate key
shadowing an earlier one, as in a Python dict built by json.loads. -/
inductive Json where
  | null : Json
  | bool (b : Bool) : Json
  | num (n : Int) : Json
  | str (s : String) : Json
  | arr (items : List Json) : Json
  | obj (fields : List (String × Json)) : Json

/-- Skip JSON whitespace (space, tab, newline, carriage return), as the
Python json decoder does between tokens. -/
def Json.skipWs : List Char → List Char
  | [] => []
  | c :: cs =>
    if c = ' ' ∨ c = '\t' ∨ c = '\n' ∨ c = '\r' then Json.skipWs cs else c :: cs

/-- Value of a hexadecimal digit, used for \u escapes in JSON strings. -/
def Json.hexVal (c : Char) : Option Nat :=
  if '0' ≤ c ∧ c ≤ '9' then some (c.toNat - 48)
  else if 'a' ≤ c ∧ c ≤ 'f' then some (c.toNat - 87)
  else if 'A' ≤ c ∧ c ≤ 'F' then some (c.toNat - 55)
  else none

/-- Single-character JSON string escapes. -/
def Json.escChar (c : Char) : Option Char :=
  if c = '"' then some '"'
  else if c = '\\' then some '\\'
  else if c = '/' then some '/'
  else if c = 'b' then some '\x08'
  else if c = 'f' then some '\x0c'
  else if c = 'n' then some '\n'
  else if c = 'r' then some '\r'
  else if c = 't' then some '\t'
  else none

/-- Parse the body of a JSON string after the opening quote, returning the
decoded content and the input remaining after the closing quote. Unescaped
control characters are rejected, as in the strict Python decoder. The fuel
argument bounds recursion; callers pass more fuel than characters. -/
def Json.parseStringBody : Nat → List Char → Option (String × List Char)
  | 0, _ => none
  | _, [] => none
  | fuel + 1, c :: cs =>
    if c = '"' then some ("", cs)
    else if c = '\\' then
      match cs with
      | [] => none
      | e :: cs2 =>
        if e = 'u' then
          match cs2 with
          | h1 :: h2 :: h3 :: h4 :: cs3 =>
            match Json.hexVal h1, Json.hexVal h2, Json.hexVal h3, Json.hexVal h4 with
            | some a, some b, some c2, some d =>
              match Json.parseStringBody fuel cs3 with
              | some (s, r) =>
                some (String.mk (Char.ofNat (((a * 16 + b) * 16 + c2) * 16 + d) :: s.data), r)
              | none => none
            | _, _, _, _ => none
          | _ => none
        else
          match Json.escChar e with
          | some ch =>
            match Json.parseStringBody fuel cs2 with
            | some (s, r) => some (String.mk (ch :: s.data), r)
            | none => none
          | none => none
    else if c.toNat < 32 then none
    else
      match Json.parseStringBody fuel cs with
      | some (s, r) => some (String.mk (c :: s.data), r)
      | none => none

/-- Accumulate decimal digits into a number. -/
def Json.digitsToNat : List Char → Nat → Nat
  | [], acc => acc
  | c :: cs, acc => Json.digitsToNat cs (acc * 10 + (c.toNat - 48))

/-- Split a character list into its leading run of decimal digits and the rest. -/
def Json.spanDigits : List Char → (List Char × List Char)
  | [] => ([], [])
  | c :: cs =>
    if c.isDigit then
      match Json.spanDigits cs with
      | (ds, rest) => (c :: ds, rest)
    else ([], c :: cs)

/-- Parse an unsigned JSON integer: at least one digit, no redundant leading
zero, and not followed by a fraction or exponent (non-integer numbers are
outside this model, see Json). -/
def Json.numCore (cs : List Char) : Option (Nat × List Char) :=
  match Json.spanDigits cs with
  | ([], _) => none
  | (ds, rest) =>
    if ds.length > 1 ∧ ds.head? = some '0' then none
    else
      match rest with
      | c :: _ =>
        if c = '.' ∨ c = 'e' ∨ c = 'E' then none
        else some (Json.digitsToNat ds 0, rest)
      | [] => some (Json.digitsToNat ds 0, rest)

/-- Parse a JSON integer with optional leading minus sign. -/
def Json.parseNumber (cs : List Char) : Option (Json × List Char) :=
  match cs with
  | '-' :: cs1 =>
    match Json.numCore cs1 with
    | some (n, rest) => some (Json.num (-(n : Int)), rest)
    | none => none
  | _ =>
    match Json.numCore cs with
    | some (n, rest) => some (Json.num (n : Int), rest)
    | none => none

mutual

/-- Parse one JSON value from the input (which must start with a value token);
returns the value and the remaining input. Fuel bounds the mutual recursion. -/
def Json.parseVal : Nat → List Char → Option (Json × List Char)
  | 0, _ => none
  | fuel + 1, cs =>
    match cs with
    | [] => none
    | c :: rest =>
      if c = '"' then
        match Json.parseStringBody (rest.length + 1) rest with
        | some (s, r) => some (Json.str s, r)
        | none => none
      else if c = '\x7b' then Json.parseMembers fuel (Json.skipWs rest) []
      else if c = '[' then Json.parseItems fuel (Json.skipWs rest) []
      else if c = 't' then
        match rest with
        | 'r' :: 'u' :: 'e' :: r => some (Json.bool true, r)
        | _ => none
      else if c = 'f' then
        match rest with
        | 'a' :: 'l' :: 's' :: 'e' :: r => some (Json.bool false, r)
        | _ => none
      else if c = 'n' then
        match rest with
        | 'u' :: 'l' :: 'l' :: r => some (Json.null, r)
        | _ => none
      else Json.parseNumber cs

/-- Parse the members of a JSON object after the opening brace (whitespace
already skipped), accumulating parsed key-value pairs. -/
def Json.parseMembers : Nat → List Char → List (String × Json) → Option (Json × List Char)
  | 0, _, _ => none
  | fuel + 1, cs, acc =>
    match cs with
    | '\x7d' :: r => if acc.isEmpty then some (Json.obj [], r) else none
    | '"' :: rest =>
      match Json.parseStringBody (rest.length + 1) rest with
      | some (k, r1) =>
        match Json.skipWs r1 with
        | ':' :: r2 =>
          match Json.parseVal fuel (Json.skipWs r2) with
          | some (v, r3) =>
            match Json.skipWs r3 with
            | ',' :: r4 => Json.parseMembers fuel (Json.skipWs r4) (acc ++ [(k, v)])
            | '\x7d' :: r4 => some (Json.obj (acc ++ [(k, v)]), r4)
            | _ => none
          | none => none
        | _ => none
      | none => none
    | _ => none

/-- Parse the items of a JSON array after the opening bracket (whitespace
already skipped), accumulating parsed items. -/
def Json.parseItems : Nat → List Char → List Json → Option (Json × List Char)
  | 0, _, _ => none
  | fuel + 1, cs, acc =>
    match cs with
    | ']' :: r => if acc.isEmpty then some (Json.arr [], r) else none
    | _ =>
      match Json.parseVal fuel cs with
      | some (v, r1) =>
        match Json.skipWs r1 with
        | ',' :: r2 => Json.parseItems fuel (Json.skipWs r2) (acc ++ [v])
        | ']' :: r2 => some (Json.arr (acc ++ [v]), r2)
        | _ => none
      | none => none

end

/-- Parse a complete JSON document: one value surrounded by optional
whitespace, with nothing left over. Models the acceptance behavior of
Python json.loads on this client's payloads. -/
def Json.parse (s : String) : Option Json :=
  match Json.parseVal (2 * s.data.length + 2) (Json.skipWs s.data) with
  | some (j, rest) => if Json.skipWs rest = [] then some j else none
  | none => none

/-- Look up a key in an object's field list; a later duplicate key shadows an
earlier one, matching Python dict construction by json.loads. -/
def Json.lookupKey : List (String × Json) → String → Option Json
  | [], _ => none
  | (k2, v) :: rest, k =>
    match Json.lookupKey rest k with
    | some v2 => some v2
    | none => if k2 = k then some v else none

/-- The error-extraction pattern the source repeats twice (padz.py lines
92-96 and 104-107): json.loads the text and, when the decoded value is a
dict containing the key "error", give that value; a decode failure or a
non-dict value gives nothing. -/
def Json.embeddedError (s : String) : Option Json :=
  match Json.parse s with
  | some (Json.obj fields) => Json.lookupKey fields "error"
  | _ => none

/-- The Python exceptions observable from this module, tagged by their class.
PadzError is the module's own domain error (src/apis/padz.py line 48); its
payload is the Python value the source passes to the constructor, which for
raise PadzError(data["error"]) is an arbitrary decoded JSON value. The other
constructors model the standard-library exception classes the code can let
escape: ValueError (create's empty-content gate and datetime parsing),
json.JSONDecodeError, KeyError, TypeError and AttributeError (dynamic access
on decoded payloads). -/
inductive PyExn where
  | padzError (arg : Json) : PyExn
  | valueError (arg : String) : PyExn
  | jsonDecodeError (arg : String) : PyExn
  | keyError (key : String) : PyExn
  | typeError (arg : String) : PyExn
  | attributeError (arg : String) : PyExn

/-- The Python class name of an exception value; two exceptions are of the
same exception type exactly when their class names agree. -/
def PyExn.className : PyExn → String
  | .padzError _ => "PadzError"
  | .valueError _ => "ValueError"
  | .jsonDecodeError _ => "JSONDecodeError"
  | .keyError _ => "KeyError"
  | .typeError _ => "TypeError"
  | .attributeError _ => "AttributeError"

/-- Models Python subscription data[k] with a string key on a decoded JSON
value: on a dict it returns the entry or raises KeyError; on any other value
it raises TypeError. -/
def Json.getItem (j : Json) (k : String) : Except PyExn Json :=
  match j with
  | .obj fields =>
    match Json.lookupKey fields k with
    | some v => .ok v
    | none => .error (.keyError k)
  | _ => .error (.typeError "value is not subscriptable with a string key")

/-- Models Python dict.get(k) on a decoded JSON value: absent keys and keys
mapped to JSON null both yield Python None (here: none); on a non-dict value
the attribute lookup raises AttributeError. -/
def Json.getDefault (j : Json) (k : String) : Except PyExn (Option Json) :=
  match j with
  | .obj fields =>
    match Json.lookupKey fields k with
    | some .null => .ok none
    | some v => .ok (some v)
    | none => .ok none
  | _ => .error (.attributeError "get")

/-- Models Python iteration (for item in data) over a decoded JSON value:
lists yield their items, dicts yield their keys, strings yield their
one-character substrings, anything else raises TypeError. -/
def Json.pyIter (j : Json) : Except PyExn (List Json) :=
  match j with
  | .arr items => .ok items
  | .obj fields => .ok (fields.map (fun kv => Json.str kv.1))
  | .str s => .ok (s.data.map (fun c => Json.str (String.mk [c])))
  | _ => .error (.typeError "value is not iterable")

/-- Models Python json.loads: parse the text as a JSON document or raise
json.JSONDecodeError. -/
def json.loads (s : String) : Except PyExn Json :=
  match Json.parse s with
  | some j => .ok j
  | none => .error (.jsonDecodeError "Expecting value")

/-- Recursive worker for pyStrReplace; fuel exceeds the input length. -/
def pyStrReplaceGo (pat rep : List Char) : Nat → List Char → List Char
  | 0, cs => cs
  | _, [] => []
  | fuel + 1, c :: cs =>
    if pat.isPrefixOf (c :: cs) then
      rep ++ pyStrReplaceGo pat rep fuel (List.drop pat.length (c :: cs))
    else c :: pyStrReplaceGo pat rep fuel cs

/-- Models Python str.replace: replace every non-overlapping occurrence of
old (assumed non-empty, as in the one use site) by new, scanning left to
right. -/
def pyStrReplace (s old new : String) : String :=
  String.mk (pyStrReplaceGo old.data new.data (s.data.length + 1) s.data)

/-- A Python datetime value: calendar fields plus an optional fixed UTC
offset in minutes (none models a naive datetime). -/
structure PyDatetime where
  year : Nat
  month : Nat
  day : Nat
  hour : Nat
  minute : Nat
  second : Nat
  microsecond : Nat
  tzOffsetMinutes : Option Int
deriving DecidableEq

/-- Read exactly n decimal digits, folding them onto the accumulator. -/
def readFixedDigits : Nat → Nat → List Char → Option (Nat × List Char)
  | 0, acc, cs => some (acc, cs)
  | n + 1, acc, cs =>
    match cs with
    | c :: rest =>
      if c.isDigit then readFixedDigits n (acc * 10 + (c.toNat - 48)) rest else none
    | [] => none

/-- Require the next character to be c and drop it. -/
def expectChar (c : Char) : List Char → Option (List Char)
  | [] => none
  | x :: xs => if x = c then some xs else none

/-- Gregorian leap-year rule, as used by Python datetime validation. -/
def isLeapYear (y : Nat) : Bool := (y % 4 = 0 ∧ y % 100 ≠ 0) ∨ y % 400 = 0

/-- Number of days in a month, as validated by the Python datetime
constructor. -/
def daysInMonth (y m : Nat) : Nat :=
  if m = 2 then (if isLeapYear y then 29 else 28)
  else if m = 4 ∨ m = 6 ∨ m = 9 ∨ m = 11 then 30
  else 31

/-- Parse a fractional-second part after the dot: one to six digits, scaled
to microseconds. -/
def datetime.parseFraction (cs : List Char) : Option (Nat × List Char) :=
  match Json.spanDigits cs with
  | ([], _) => none
  | (ds, rest) =>
    if ds.length > 6 then none
    else some (Json.digitsToNat ds 0 * 10 ^ (6 - ds.length), rest)

/-- Parse the optional UTC-offset suffix of an ISO-8601 string: either the
end of input (a naive datetime) or a sign followed by HH:MM consuming the
rest of the input, with the offset strictly below 24 hours. -/
def datetime.parseOffset (cs : List Char) : Option (Option Int) :=
  match cs with
  | [] => some none
  | sign :: rest =>
    if sign = '+' ∨ sign = '-' then
      match readFixedDigits 2 0 rest with
      | some (oh, r1) =>
        match expectChar ':' r1 with
        | some r2 =>
          match readFixedDigits 2 0 r2 with
          | some (om, r3) =>
            if r3 = [] ∧ om ≤ 59 ∧ oh * 60 + om < 1440 then
              some (some (if sign = '-' then -((oh * 60 + om : Nat) : Int)
                          else ((oh * 60 + om : Nat) : Int)))
            else none
          | none => none
        | none => none
      | none => none
    else none

/-- Parse the time-of-day part of an ISO-8601 string: HH with optional :MM,
optional :SS, optional fractional seconds, then the optional offset suffix. -/
def datetime.parseTime (cs : List Char) : Option (Nat × Nat × Nat × Nat × Option Int) := do
  let (hh, r1) ← readFixedDigits 2 0 cs
  match r1 with
  | ':' :: r2 => do
    let (mm, r3) ← readFixedDigits 2 0 r2
    match r3 with
    | ':' :: r4 => do
      let (ss, r5) ← readFixedDigits 2 0 r4
      match r5 with
      | '.' :: r6 => do
        let (us, r7) ← datetime.parseFraction r6
        let off ← datetime.parseOffset r7
        pure (hh, mm, ss, us, off)
      | _ => do
        let off ← datetime.parseOffset r5
        pure (hh, mm, ss, 0, off)
    | _ => do
      let off ← datetime.parseOffset r3
      pure (hh, mm, 0, 0, off)
  | _ => do
    let off ← datetime.parseOffset r1
    pure (hh, 0, 0, 0, off)

/-- Core ISO-8601 parser behind datetime.fromisoformat: a validated
YYYY-MM-DD date, optionally followed by a T or space separator and a time
part with optional UTC offset. -/
def datetime.fromisoformatCore (s : String) : Option PyDatetime := do
  let (y, r1) ← readFixedDigits 4 0 s.data
  let r2 ← expectChar '-' r1
  let (mo, r3) ← readFixedDigits 2 0 r2
  let r4 ← expectChar '-' r3
  let (d, r5) ← readFixedDigits 2 0 r4
  if 1 ≤ y ∧ 1 ≤ mo ∧ mo ≤ 12 ∧ 1 ≤ d ∧ d ≤ daysInMonth y mo then
    match r5 with
    | [] => pure (PyDatetime.mk y mo d 0 0 0 0 none)
    | sep :: rest =>
      if sep = 'T' ∨ sep = ' ' then do
        let (hh, mm, ss, us, off) ← datetime.parseTime rest
        if hh ≤ 23 ∧ mm ≤ 59 ∧ ss ≤ 59 then
          pure (PyDatetime.mk y mo d hh mm ss us off)
        else none
      else none
  else none

/-- Models Python datetime.fromisoformat for the ISO-8601 forms this client
meets: succeed with the parsed datetime or raise ValueError. A trailing Z is
not accepted here (the caller normalizes it away first). -/
def datetime.fromisoformat (s : String) : Except PyExn PyDatetime :=
  match datetime.fromisoformatCore s with
  | some dt => .ok dt
  | none => .error (.valueError ("Invalid isoformat string: " ++ s))

/-- The Scratch dataclass. Python dataclasses do not check field types, so
the id, project and title fields hold whatever decoded JSON value was passed;
created_at is the datetime produced by from_dict. -/
structure Scratch where
  id : Json
  project : Json
  title : Json
  created_at : PyDatetime

/-- Scratch.from_dict: read the four fields from the dictionary (raising
KeyError when one is missing), normalize a trailing Z in created_at to a
+00:00 offset via str.replace, and parse it with datetime.fromisoformat.
A non-string created_at raises AttributeError at the replace call. -/
def Scratch.from_dict (data : Json) : Except PyExn Scratch := do
  let i ← data.getItem "id"
  let p ← data.getItem "project"
  let t ← data.getItem "title"
  let c ← data.getItem "created_at"
  match c with
  | .str s => do
    let dt ← datetime.fromisoformat (pyStrReplace s "Z" "+00:00")
    pure (Scratch.mk i p t dt)
  | _ => .error (.attributeError "replace")

/-- The PathResult dataclass (declared in the source; the path operation
itself returns the raw field). -/
structure PathResult where
  path : String

/-- The NukeResult dataclass; like Scratch, its fields hold the decoded
values unchecked, and project_name is the dict.get result. -/
structure NukeResult where
  deleted_count : Json
  scope : Json
  project_name : Option Json

/-- One subprocess.run invocation as observed from outside: the full command
vector (the padz executable name followed by the arguments) and the text, if
any, supplied on standard input. -/
structure SpawnCall where
  cmd : List String
  input : Option String
deriving DecidableEq

/-- What the operating system does with one spawn: either the child runs to
completion with an exit code and captured stdout/stderr text, or the
executable cannot be located (FileNotFoundError), or communication with the
subprocess fails (subprocess.SubprocessError). -/
inductive SpawnOutcome where
  | completed (returncode : Int) (stdout : String) (stderr : String) : SpawnOutcome
  | fileNotFound : SpawnOutcome
  | subprocessError (msg : String) : SpawnOutcome

/-- The subprocess environment: a response for every command vector and
stdin text the client might spawn. -/
def Runner := List String → Option String → SpawnOutcome

/-- The error_msg expression of padz.py line 103, Python truthiness spelled
out: result.stderr or result.stdout or the synthesized text. -/
def rawErrorText (returncode : Int) (stdout stderr : String) : String :=
  if stderr = "" then
    (if stdout = "" then "Command failed with exit code " ++ toString returncode else stdout)
  else stderr

/-- The body of PadzClient._exec after subprocess.run has completed (padz.py
lines 91-113): if stdout is non-empty, parses as JSON, and is a dict
containing "error", raise PadzError with that value; errors from json.loads
itself are swallowed. Otherwise, on a non-zero exit code, take stderr if
non-empty, else stdout if non-empty, else the synthesized text, and raise
PadzError with its embedded "error" value when it is such a dict, else with
the text stripped of surrounding whitespace (str.strip modeled by
String.trim). Otherwise return stdout verbatim. -/
def interpretCompleted (returncode : Int) (stdout stderr : String) : Except PyExn String :=
  match (if stdout = "" then none else Json.embeddedError stdout) with
  | some v => .error (.padzError v)
  | none =>
    if returncode ≠ 0 then
      match Json.embeddedError (rawErrorText returncode stdout stderr) with
      | some v => .error (.padzError v)
      | none => .error (.padzError (Json.str (rawErrorText returncode stdout stderr).trim))
    else .ok stdout

/-- PadzClient._exec: prepend the executable name, spawn the subprocess, and
translate the outcome. FileNotFoundError becomes a PadzError with a fixed
guidance message; a SubprocessError becomes a PadzError wrapping its text.
The second component records the spawn calls performed (always exactly one
here). -/
def PadzClient._exec (run : Runner) (args : List String) (input_text : Option String) :
    Except PyExn String × List SpawnCall :=
  let cmd := "padz" :: args
  (match run cmd input_text with
   | .completed code out err => interpretCompleted code out err
   | .fileNotFound =>
       .error (.padzError (Json.str
         "padz command not found. Please ensure padz is installed and in PATH"))
   | .subprocessError msg =>
       .error (.padzError (Json.str ("Failed to execute command: " ++ msg))),
   [SpawnCall.mk cmd input_text])

/-- PadzClient.create: reject empty content with ValueError before any
subprocess is spawned; otherwise run padz with the JSON format flag, feeding
the content on stdin, and build a Scratch from the decoded output. -/
def PadzClient.create (run : Runner) (content : String) :
    Except PyExn Scratch × List SpawnCall :=
  if content = "" then (.error (.valueError "Content cannot be empty"), [])
  else
    let r := PadzClient._exec run ["--format", "json"] (some content)
    (match r.1 with
     | .error e => .error e
     | .ok output => do
        let data ← json.loads output
        Scratch.from_dict data,
     r.2)

/-- PadzClient.list: run padz ls with the JSON format flag and the optional
scope flags, decode the output, and build a Scratch from every element. -/
def PadzClient.list (run : Runner) (all global_ : Bool) :
    Except PyExn (List Scratch) × List SpawnCall :=
  let args := ["ls", "--format", "json"]
  let args2 := if all then args ++ ["--all"] else args
  let args3 := if global_ then args2 ++ ["--global"] else args2
  let r := PadzClient._exec run args3 none
  (match r.1 with
   | .error e => .error e
   | .ok output => do
      let data ← json.loads output
      let items ← data.pyIter
      items.mapM Scratch.from_dict,
   r.2)

/-- PadzClient.view: run padz view with the stringified index, the JSON
format flag and the optional scope flags, decode the output, and return its
content entry. -/
def PadzClient.view (run : Runner) (index : Int) (all global_ : Bool) :
    Except PyExn Json × List SpawnCall :=
  let args := ["view", toString index, "--format", "json"]
  let args2 := if all then args ++ ["--all"] else args
  let args3 := if global_ then args2 ++ ["--global"] else args2
  let r := PadzClient._exec run args3 none
  (match r.1 with
   | .error e => .error e
   | .ok output => do
      let data ← json.loads output
      data.getItem "content",
   r.2)

/-- PadzClient.open: run padz open with the stringified index, the JSON
format flag and the optional all flag, discarding the output. -/
def PadzClient.open_ (run : Runner) (index : Int) (all : Bool) :
    Except PyExn Unit × List SpawnCall :=
  let args := ["open", toString index, "--format", "json"]
  let args2 := if all then args ++ ["--all"] else args
  let r := PadzClient._exec run args2 none
  (match r.1 with
   | .error e => .error e
   | .ok _ => .ok (),
   r.2)

/-- PadzClient.peek: run padz peek with the stringified index, the JSON
format flag, the lines flag and the optional scope flags, decode the output,
and return its content entry. -/
def PadzClient.peek (run : Runner) (index : Int) (all global_ : Bool) (lines : Int) :
    Except PyExn Json × List SpawnCall :=
  let args := ["peek", toString index, "--format", "json", "--lines", toString lines]
  let args2 := if all then args ++ ["--all"] else args
  let args3 := if global_ then args2 ++ ["--global"] else args2
  let r := PadzClient._exec run args3 none
  (match r.1 with
   | .error e => .error e
   | .ok output => do
      let data ← json.loads output
      data.getItem "content",
   r.2)

/-- PadzClient.delete: run padz delete with the stringified index, the JSON
format flag and the optional all flag, discarding the output. -/
def PadzClient.delete (run : Runner) (index : Int) (all : Bool) :
    Except PyExn Unit × List SpawnCall :=
  let args := ["delete", toString index, "--format", "json"]
  let args2 := if all then args ++ ["--all"] else args
  let r := PadzClient._exec run args2 none
  (match r.1 with
   | .error e => .error e
   | .ok _ => .ok (),
   r.2)

/-- PadzClient.path: run padz path with the stringified index, the JSON
format flag and the optional all flag, decode the output, and return its
path entry. -/
def PadzClient.path (run : Runner) (index : Int) (all : Bool) :
    Except PyExn Json × List SpawnCall :=
  let args := ["path", toString index, "--format", "json"]
  let args2 := if all then args ++ ["--all"] else args
  let r := PadzClient._exec run args2 none
  (match r.1 with
   | .error e => .error e
   | .ok output => do
      let data ← json.loads output
      data.getItem "path",
   r.2)

/-- PadzClient.search: run padz search with the term, the JSON format flag
and the optional scope flags, decode the output, and build a Scratch from
every element. -/
def PadzClient.search (run : Runner) (term : String) (all global_ : Bool) :
    Except PyExn (List Scratch) × List SpawnCall :=
  let args := ["search", term, "--format", "json"]
  let args2 := if all then args ++ ["--all"] else args
  let args3 := if global_ then args2 ++ ["--global"] else args2
  let r := PadzClient._exec run args3 none
  (match r.1 with
   | .error e => .error e
   | .ok output => do
      let data ← json.loads output
      let items ← data.pyIter
      items.mapM Scratch.from_dict,
   r.2)

/-- PadzClient.cleanup: run padz cleanup with the JSON format flag and the
days flag, discarding the output. -/
def PadzClient.cleanup (run : Runner) (days : Int) :
    Except PyExn Unit × List SpawnCall :=
  let args := ["cleanup", "--format", "json", "--days", toString days]
  let r := PadzClient._exec run args none
  (match r.1 with
   | .error e => .error e
   | .ok _ => .ok (),
   r.2)

/-- PadzClient.nuke: without yes=True, raise PadzError before anything is
spawned; otherwise run padz nuke with the JSON format flag, the confirmation
flag and the optional all flag, decode the output, and build a NukeResult. -/
def PadzClient.nuke (run : Runner) (all yes : Bool) :
    Except PyExn NukeResult × List SpawnCall :=
  if yes = false then
    (.error (.padzError (Json.str "Must set yes=True for non-interactive nuke operation")), [])
  else
    let args := ["nuke", "--format", "json", "--yes"]
    let args2 := if all then args ++ ["--all"] else args
    let r := PadzClient._exec run args2 none
    (match r.1 with
     | .error e => .error e
     | .ok output => do
        let data ← json.loads output
        let dc ← data.getItem "deleted_count"
        let sc ← data.getItem "scope"
        let pn ← data.getDefault "project_name"
        pure (NukeResult.mk dc sc pn),
     r.2)

/-- Mirrors the specification's wording for step 3 of the executor contract:
the raw error text for a non-zero exit is standard-error if non-empty, else
standard-output if non-empty, else the synthesized text. -/
def specRawErrorText (code : Int) (stdout stderr : String) : String :=
  if stderr ≠ "" then stderr
  else if stdout ≠ "" then stdout
  else "Command failed with exit code " ++ toString code

/-- Mirrors the specification's wording for the non-zero-exit failure
message: the embedded "error" value when the raw error text parses as a JSON
mapping containing that key, otherwise the raw text trimmed of surrounding
whitespace. -/
def specDerivedErrorMessage (code : Int) (stdout stderr : String) : Json :=
  match Json.embeddedError (specRawErrorText code stdout stderr) with
  | some v => v
  | none => Json.str (specRawErrorText code stdout stderr).trim

/-- The source's error_msg selection agrees with the spec's wording of it. -/
theorem rawErrorText_eq_spec (code : Int) (stdout stderr : String) :
    rawErrorText code stdout stderr = specRawErrorText code stdout stderr := by
  simp only [rawErrorText, specRawErrorText]
  by_cases h1 : stderr = "" <;> by_cases h2 : stdout = "" <;> simp [h1, h2]

/-- Claim C1: whenever stdout is non-empty and parses as a JSON mapping that
contains the key "error", _exec fails with a PadzError carrying that error
value, for every exit code (0 included) and every stderr text: the
embedded-error check is applied before the exit-code check. -/
theorem claim1_embedded_error_takes_priority (args : List String) (inp : Option String)
    (code : Int) (stdout stderr : String) (fields : List (String × Json)) (v : Json)
    (hne : stdout ≠ "")
    (hp : Json.parse stdout = some (Json.obj fields))
    (hk : Json.lookupKey fields "error" = some v) :
    (PadzClient._exec (fun _ _ => SpawnOutcome.completed code stdout stderr) args inp).1
      = Except.error (PyExn.padzError v) := by
  simp only [PadzClient._exec, interpretCompleted, Json.embeddedError, hp, hk, if_neg hne]

/-- Witness for claim C1 at exit code 0, stdout carrying an error object and
a non-empty stderr. -/
theorem claim1_embedded_error_takes_priority_witness :
    (PadzClient._exec (fun _ _ => SpawnOutcome.completed 0 "\x7b\"error\": \"boom\"\x7d" "ignored")
        [] none).1
      = Except.error (PyExn.padzError (Json.str "boom")) :=
  claim1_embedded_error_takes_priority [] none 0 "\x7b\"error\": \"boom\"\x7d" "ignored"
    [("error", Json.str "boom")] (Json.str "boom") (by decide) rfl rfl

/-- Claim C2: on a non-zero exit code with no embedded error object in
stdout, _exec fails with a PadzError whose message is derived as the spec
states: stderr if non-empty, else stdout if non-empty, else the synthesized
text; with an embedded "error" value preferred when that text is such a JSON
mapping, else the text trimmed. In particular a non-empty stderr is the
source of the message. -/
theorem claim2_nonzero_exit_failure (args : List String) (inp : Option String)
    (code : Int) (stdout stderr : String)
    (hc : code ≠ 0)
    (hno : (if stdout = "" then none else Json.embeddedError stdout) = none) :
    (PadzClient._exec (fun _ _ => SpawnOutcome.completed code stdout stderr) args inp).1
      = Except.error (PyExn.padzError (specDerivedErrorMessage code stdout stderr))
    ∧ (stderr ≠ "" → specRawErrorText code stdout stderr = stderr) := by
  constructor
  · simp only [PadzClient._exec, interpretCompleted, hno]
    rw [if_pos hc, rawErrorText_eq_spec]
    simp only [specDerivedErrorMessage]
    cases h : Json.embeddedError (specRawErrorText code stdout stderr) <;> simp [h]
  · intro h
    simp [specRawErrorText, h]

/-- Witness for claim C2: exit code 5, empty stdout, whitespace-padded
stderr. -/
theorem claim2_nonzero_exit_failure_witness :
    (PadzClient._exec (fun _ _ => SpawnOutcome.completed 5 "" "  oops ") [] none).1
      = Except.error (PyExn.padzError (specDerivedErrorMessage 5 "" "  oops "))
    ∧ ("  oops " ≠ "" → specRawErrorText 5 "" "  oops " = "  oops ") :=
  claim2_nonzero_exit_failure [] none 5 "" "  oops " (by decide) rfl

/-- Claim C3 counterexample: the child exits 0 and stdout is a JSON object
without an "error" key, yet the view operation does not succeed: it raises
KeyError because the object lacks the "content" field it extracts. -/
theorem claim3_counterexample_view_keyerror :
    (PadzClient.view (fun _ _ => SpawnOutcome.completed 0 "\x7b\x7d" "") 1 false false).1
      = Except.error (PyExn.keyError "content") := rfl

/-- A string that parses as some JSON value is not the empty string. -/
theorem parse_ne_empty {stdout : String} {j : Json}
    (hp : Json.parse stdout = some j) : stdout ≠ "" := by
  intro h
  rw [h, show Json.parse "" = none from rfl] at hp
  cases hp

/-- A stdout that parses as a JSON object without an "error" key carries no
embedded error. -/
theorem no_embedded_of_parse_obj {stdout : String} {fields : List (String × Json)}
    (hp : Json.parse stdout = some (Json.obj fields))
    (herr : Json.lookupKey fields "error" = none) :
    (if stdout = "" then none else Json.embeddedError stdout) = none := by
  rw [if_neg (parse_ne_empty hp)]
  simp only [Json.embeddedError, hp, herr]

/-- A stdout that parses as a JSON array carries no embedded error. -/
theorem no_embedded_of_parse_arr {stdout : String} {items : List Json}
    (hp : Json.parse stdout = some (Json.arr items)) :
    (if stdout = "" then none else Json.embeddedError stdout) = none := by
  rw [if_neg (parse_ne_empty hp)]
  simp only [Json.embeddedError, hp]

/-- On exit code 0 with no embedded error object in stdout, _exec returns
stdout verbatim, for any argument vector and stdin text. -/
theorem exec_const_ok (args : List String) (inp : Option String) (stdout stderr : String)
    (hno : (if stdout = "" then none else Json.embeddedError stdout) = none) :
    (PadzClient._exec (fun _ _ => SpawnOutcome.completed 0 stdout stderr) args inp).1
      = Except.ok stdout := by
  simp only [PadzClient._exec, interpretCompleted, hno]
  simp

/-- Monadic bind on an Except success steps to the continuation. -/
theorem exceptBind_ok {α β : Type} (a : α) (f : α → Except PyExn β) :
    (Except.ok a >>= f) = f a := rfl

/-- pure in the Except monad is the success constructor. -/
theorem exceptPure_ok {α : Type} (a : α) : (pure a : Except PyExn α) = Except.ok a := rfl

/-- Claim C3 (amended): on exit code 0 with no embedded error object in
stdout, _exec succeeds and returns stdout verbatim; consequently each
calling operation succeeds with the decoded structure mapped unchanged
whenever the payload has the shape its success mapping reads: create and
nuke when the object carries their dataclass fields, list and search when
the array's elements each convert to a Scratch, view, peek and path when
the object carries the extracted field, and open, delete and cleanup on any
such outcome (they extract nothing). -/
theorem claim3_success_returns_stdout_verbatim :
    (∀ (args : List String) (inp : Option String) (stdout stderr : String),
        (if stdout = "" then none else Json.embeddedError stdout) = none →
        (PadzClient._exec (fun _ _ => SpawnOutcome.completed 0 stdout stderr) args inp).1
          = Except.ok stdout)
    ∧ (∀ (content stdout stderr : String) (fields : List (String × Json)) (scr : Scratch),
        content ≠ "" →
        Json.parse stdout = some (Json.obj fields) →
        Json.lookupKey fields "error" = none →
        Scratch.from_dict (Json.obj fields) = Except.ok scr →
        (PadzClient.create (fun _ _ => SpawnOutcome.completed 0 stdout stderr) content).1
          = Except.ok scr)
    ∧ (∀ (stdout stderr : String) (a g : Bool) (items : List Json) (scrs : List Scratch),
        Json.parse stdout = some (Json.arr items) →
        List.mapM Scratch.from_dict items = Except.ok scrs →
        (PadzClient.list (fun _ _ => SpawnOutcome.completed 0 stdout stderr) a g).1
          = Except.ok scrs)
    ∧ (∀ (stdout stderr : String) (i : Int) (a g : Bool)
          (fields : List (String × Json)) (v : Json),
        Json.parse stdout = some (Json.obj fields) →
        Json.lookupKey fields "error" = none →
        Json.lookupKey fields "content" = some v →
        (PadzClient.view (fun _ _ => SpawnOutcome.completed 0 stdout stderr) i a g).1
          = Except.ok v)
    ∧ (∀ (stdout stderr : String) (i : Int) (a : Bool),
        (if stdout = "" then none else Json.embeddedError stdout) = none →
        (PadzClient.open_ (fun _ _ => SpawnOutcome.completed 0 stdout stderr) i a).1
          = Except.ok ())
    ∧ (∀ (stdout stderr : String) (i : Int) (a g : Bool) (lines : Int)
          (fields : List (String × Json)) (v : Json),
        Json.parse stdout = some (Json.obj fields) →
        Json.lookupKey fields "error" = none →
        Json.lookupKey fields "content" = some v →
        (PadzClient.peek (fun _ _ => SpawnOutcome.completed 0 stdout stderr) i a g lines).1
          = Except.ok v)
    ∧ (∀ (stdout stderr : String) (i : Int) (a : Bool),
        (if stdout = "" then none else Json.embeddedError stdout) = none →
        (PadzClient.delete (fun _ _ => SpawnOutcome.completed 0 stdout stderr) i a).1
          = Except.ok ())
    ∧ (∀ (stdout stderr : String) (i : Int) (a : Bool)
          (fields : List (String × Json)) (v : Json),
        Json.parse stdout = some (Json.obj fields) →
        Json.lookupKey fields "error" = none →
        Json.lookupKey fields "path" = some v →
        (PadzClient.path (fun _ _ => SpawnOutcome.completed 0 stdout stderr) i a).1
          = Except.ok v)
    ∧ (∀ (stdout stderr term : String) (a g : Bool) (items : List Json)
          (scrs : List Scratch),
        Json.parse stdout = some (Json.arr items) →
        List.mapM Scratch.from_dict items = Except.ok scrs →
        (PadzClient.search (fun _ _ => SpawnOutcome.completed 0 stdout stderr) term a g).1
          = Except.ok scrs)
    ∧ (∀ (stdout stderr : String) (days : Int),
        (if stdout = "" then none else Json.embeddedError stdout) = none →
        (PadzClient.cleanup (fun _ _ => SpawnOutcome.completed 0 stdout stderr) days).1
          = Except.ok ())
    ∧ (∀ (stdout stderr : String) (a : Bool) (fields : List (String × Json))
          (dc sc : Json) (pn : Option Json),
        Json.parse stdout = some (Json.obj fields) →
        Json.lookupKey fields "error" = none →
        Json.lookupKey fields "deleted_count" = some dc →
        Json.lookupKey fields "scope" = some sc →
        Json.getDefault (Json.obj fields) "project_name" = Except.ok pn →
        (PadzClient.nuke (fun _ _ => SpawnOutcome.completed 0 stdout stderr) a true).1
          = Except.ok (NukeResult.mk dc sc pn)) := by
  refine ⟨?_, ?_, ?_, ?_, ?_, ?_, ?_, ?_, ?_, ?_, ?_⟩
  · intro args inp stdout stderr hno
    exact exec_const_ok args inp stdout stderr hno
  · intro content stdout stderr fields scr hcon hp herr hfd
    have hok : ∀ (args2 : List String) (inp2 : Option String),
        (PadzClient._exec (fun _ _ => SpawnOutcome.completed 0 stdout stderr) args2 inp2).1
          = Except.ok stdout :=
      fun args2 inp2 => exec_const_ok args2 inp2 stdout stderr (no_embedded_of_parse_obj hp herr)
    have hld : json.loads stdout = Except.ok (Json.obj fields) := by
      simp [json.loads, hp]
    simp only [PadzClient.create, if_neg hcon, hok, hld, exceptBind_ok, hfd]
  · intro stdout stderr a g items scrs hp hmap
    have hok : ∀ (args2 : List String),
        (PadzClient._exec (fun _ _ => SpawnOutcome.completed 0 stdout stderr) args2 none).1
          = Except.ok stdout :=
      fun args2 => exec_const_ok args2 none stdout stderr (no_embedded_of_parse_arr hp)
    have hld : json.loads stdout = Except.ok (Json.arr items) := by
      simp [json.loads, hp]
    simp only [PadzClient.list, hok, hld, exceptBind_ok, Json.pyIter, hmap]
  · intro stdout stderr i a g fields v hp herr hcont
    have hok : ∀ (args2 : List String),
        (PadzClient._exec (fun _ _ => SpawnOutcome.completed 0 stdout stderr) args2 none).1
          = Except.ok stdout :=
      fun args2 => exec_const_ok args2 none stdout stderr (no_embedded_of_parse_obj hp herr)
    have hld : json.loads stdout = Except.ok (Json.obj fields) := by
      simp [json.loads, hp]
    have hgi : (Json.obj fields).getItem "content" = Except.ok v := by
      simp [Json.getItem, hcont]
    simp only [PadzClient.view, hok, hld, exceptBind_ok, hgi]
  · intro stdout stderr i a hno
    have hok : ∀ (args2 : List String),
        (PadzClient._exec (fun _ _ => SpawnOutcome.completed 0 stdout stderr) args2 none).1
          = Except.ok stdout :=
      fun args2 => exec_const_ok args2 none stdout stderr hno
    simp only [PadzClient.open_, hok]
  · intro stdout stderr i a g lines fields v hp herr hcont
    have hok : ∀ (args2 : List String),
        (PadzClient._exec (fun _ _ => SpawnOutcome.completed 0 stdout stderr) args2 none).1
          = Except.ok stdout :=
      fun args2 => exec_const_ok args2 none stdout stderr (no_embedded_of_parse_obj hp herr)
    have hld : json.loads stdout = Except.ok (Json.obj fields) := by
      simp [json.loads, hp]
    have hgi : (Json.obj fields).getItem "content" = Except.ok v := by
      simp [Json.getItem, hcont]
    simp only [PadzClient.peek, hok, hld, exceptBind_ok, hgi]
  · intro stdout stderr i a hno
    have hok : ∀ (args2 : List String),
        (PadzClient._exec (fun _ _ => SpawnOutcome.completed 0 stdout stderr) args2 none).1
          = Except.ok stdout :=
      fun args2 => exec_const_ok args2 none stdout stderr hno
    simp only [PadzClient.delete, hok]
  · intro stdout stderr i a fields v hp herr hpath
    have hok : ∀ (args2 : List String),
        (PadzClient._exec (fun _ _ => SpawnOutcome.completed 0 stdout stderr) args2 none).1
          = Except.ok stdout :=
      fun args2 => exec_const_ok args2 none stdout stderr (no_embedded_of_parse_obj hp herr)
    have hld : json.loads stdout = Except.ok (Json.obj fields) := by
      simp [json.loads, hp]
    have hgi : (Json.obj fields).getItem "path" = Except.ok v := by
      simp [Json.getItem, hpath]
    simp only [PadzClient.path, hok, hld, exceptBind_ok, hgi]
  · intro stdout stderr term a g items scrs hp hmap
    have hok : ∀ (args2 : List String),
        (PadzClient._exec (fun _ _ => SpawnOutcome.completed 0 stdout stderr) args2 none).1
          = Except.ok stdout :=
      fun args2 => exec_const_ok args2 none stdout stderr (no_embedded_of_parse_arr hp)
    have hld : json.loads stdout = Except.ok (Json.arr items) := by
      simp [json.loads, hp]
    simp only [PadzClient.search, hok, hld, exceptBind_ok, Json.pyIter, hmap]
  · intro stdout stderr days hno
    have hok : ∀ (args2 : List String),
        (PadzClient._exec (fun _ _ => SpawnOutcome.completed 0 stdout stderr) args2 none).1
          = Except.ok stdout :=
      fun args2 => exec_const_ok args2 none stdout stderr hno
    simp only [PadzClient.cleanup, hok]
  · intro stdout stderr a fields dc sc pn hp herr hdc hsc hpn
    have hok : ∀ (args2 : List String),
        (PadzClient._exec (fun _ _ => SpawnOutcome.completed 0 stdout stderr) args2 none).1
          = Except.ok stdout :=
      fun args2 => exec_const_ok args2 none stdout stderr (no_embedded_of_parse_obj hp herr)
    have hld : json.loads stdout = Except.ok (Json.obj fields) := by
      simp [json.loads, hp]
    have h1 : (Json.obj fields).getItem "deleted_count" = Except.ok dc := by
      simp [Json.getItem, hdc]
    have h2 : (Json.obj fields).getItem "scope" = Except.ok sc := by
      simp [Json.getItem, hsc]
    simp only [PadzClient.nuke, if_neg (show ¬(true = false) by decide), hok, hld,
      exceptBind_ok, h1, h2, hpn, exceptPure_ok]

/-- Witness for claim C3 (amended): a plain text success through _exec, a
create success building a Scratch from a full payload, and a view success
extracting the content field. -/
theorem claim3_success_returns_stdout_verbatim_witness :
    (PadzClient._exec (fun _ _ => SpawnOutcome.completed 0 "hi" "") [] none).1
      = Except.ok "hi"
    ∧ (PadzClient.create
          (fun _ _ => SpawnOutcome.completed 0
            "\x7b\"id\": \"a1\", \"project\": \"demo\", \"title\": \"note\", \"created_at\": \"2024-01-01T00:00:00Z\"\x7d"
            "") "hello").1
        = Except.ok (Scratch.mk (Json.str "a1") (Json.str "demo") (Json.str "note")
            (PyDatetime.mk 2024 1 1 0 0 0 0 (some 0)))
    ∧ (PadzClient.view
          (fun _ _ => SpawnOutcome.completed 0 "\x7b\"content\": \"hello\"\x7d" "") 2 false false).1
        = Except.ok (Json.str "hello") :=
  ⟨claim3_success_returns_stdout_verbatim.1 [] none "hi" "" rfl,
   claim3_success_returns_stdout_verbatim.2.1 "hello"
     "\x7b\"id\": \"a1\", \"project\": \"demo\", \"title\": \"note\", \"created_at\": \"2024-01-01T00:00:00Z\"\x7d"
     ""
     [("id", Json.str "a1"), ("project", Json.str "demo"), ("title", Json.str "note"),
      ("created_at", Json.str "2024-01-01T00:00:00Z")]
     (Scratch.mk (Json.str "a1") (Json.str "demo") (Json.str "note")
       (PyDatetime.mk 2024 1 1 0 0 0 0 (some 0)))
     (by decide) rfl rfl rfl,
   claim3_success_returns_stdout_verbatim.2.2.2.1 "\x7b\"content\": \"hello\"\x7d" "" 2 false false
     [("content", Json.str "hello")] (Json.str "hello") rfl rfl rfl⟩

/-- Claim C4: for every value of the all flag, nuke without yes=True fails
with the PadzError gate message and spawns nothing, and nuke with yes=True
performs exactly one spawn whose command vector contains the confirmation
flag. -/
theorem claim4_nuke_confirmation_gate (run : Runner) (all : Bool) :
    ((PadzClient.nuke run all false).2 = []
      ∧ (PadzClient.nuke run all false).1
          = Except.error (PyExn.padzError
              (Json.str "Must set yes=True for non-interactive nuke operation")))
    ∧ ∃ c, (PadzClient.nuke run all true).2 = [c] ∧ "--yes" ∈ c.cmd := by
  refine ⟨⟨rfl, rfl⟩, ?_⟩
  cases all
  · exact ⟨SpawnCall.mk ["padz", "nuke", "--format", "json", "--yes"] none, rfl, by decide⟩
  · exact ⟨SpawnCall.mk ["padz", "nuke", "--format", "json", "--yes", "--all"] none, rfl, by decide⟩

/-- Claim C5 counterexample: when the executable cannot be located the call
fails, but not with a distinct specialized error type: the raised exception
is of the same class (PadzError) as any generic execution error, so the two
are not distinguishable by type. -/
theorem claim5_counterexample_no_distinct_type :
    (PadzClient._exec (fun _ _ => SpawnOutcome.fileNotFound) [] none).1
      = Except.error (PyExn.padzError
          (Json.str "padz command not found. Please ensure padz is installed and in PATH"))
    ∧ PyExn.className (PyExn.padzError
          (Json.str "padz command not found. Please ensure padz is installed and in PATH"))
        = PyExn.className (PyExn.padzError (Json.str "some generic execution failure")) :=
  ⟨rfl, rfl⟩

/-- Claim C5 (amended): whenever the executable cannot be located, the call
fails with the general domain error PadzError carrying the fixed,
platform-independent guidance message; no distinct ToolNotFoundError type
exists, so the case is recognizable only by that message. -/
theorem claim5_missing_executable_guidance (args : List String) (inp : Option String)
    (run : Runner)
    (h : run ("padz" :: args) inp = SpawnOutcome.fileNotFound) :
    (PadzClient._exec run args inp).1
      = Except.error (PyExn.padzError
          (Json.str "padz command not found. Please ensure padz is installed and in PATH"))
    ∧ PyExn.className (PyExn.padzError
          (Json.str "padz command not found. Please ensure padz is installed and in PATH"))
        = "PadzError" := by
  refine ⟨?_, rfl⟩
  simp only [PadzClient._exec, h]

/-- Witness for claim C5 (amended) on a runner that cannot find the
executable. -/
theorem claim5_missing_executable_guidance_witness :
    (PadzClient._exec (fun _ _ => SpawnOutcome.fileNotFound) ["ls"] none).1
      = Except.error (PyExn.padzError
          (Json.str "padz command not found. Please ensure padz is installed and in PATH"))
    ∧ PyExn.className (PyExn.padzError
          (Json.str "padz command not found. Please ensure padz is installed and in PATH"))
        = "PadzError" :=
  claim5_missing_executable_guidance ["ls"] none (fun _ _ => SpawnOutcome.fileNotFound) rfl

/-- Claim C6 counterexample: create("") surfaces a ValueError, an exception
class distinct from the domain error PadzError, so not every failure is of
the single domain-error kind. -/
theorem claim6_counterexample_valueerror_escapes :
    (PadzClient.create (fun _ _ => SpawnOutcome.completed 0 "" "") "").1
      = Except.error (PyExn.valueError "Content cannot be empty")
    ∧ PyExn.className (PyExn.valueError "Content cannot be empty") ≠ "PadzError" :=
  ⟨rfl, by decide⟩

/-- Claim C6 (amended): every failure produced by the subprocess execution
path (_exec) — embedded "error" payloads, non-zero exit, missing executable,
subprocess communication failure — is of the single domain-error class
PadzError; the validation gate in create (ValueError) and the success-path
JSON decoding in the callers are the exceptions outside that class. -/
theorem claim6_exec_failures_are_padzerror (args : List String) (inp : Option String)
    (run : Runner) (e : PyExn)
    (h : (PadzClient._exec run args inp).1 = Except.error e) :
    PyExn.className e = "PadzError" := by
  simp only [PadzClient._exec] at h
  cases hrun : run ("padz" :: args) inp with
  | completed code out err =>
    rw [hrun] at h
    simp only [interpretCompleted] at h
    cases hemb : (if out = "" then none else Json.embeddedError out) with
    | some v =>
      rw [hemb] at h
      injection h with h2
      subst h2
      rfl
    | none =>
      rw [hemb] at h
      by_cases hc : code ≠ 0
      · rw [if_pos hc] at h
        cases hemb2 : Json.embeddedError (rawErrorText code out err) with
        | some v =>
          rw [hemb2] at h
          injection h with h2
          subst h2
          rfl
        | none =>
          rw [hemb2] at h
          injection h with h2
          subst h2
          rfl
      · rw [if_neg hc] at h
        exact Except.noConfusion h
  | fileNotFound =>
    rw [hrun] at h
    injection h with h2
    subst h2
    rfl
  | subprocessError msg =>
    rw [hrun] at h
    injection h with h2
    subst h2
    rfl

/-- Witness for claim C6 (amended) on the missing-executable failure. -/
theorem claim6_exec_failures_are_padzerror_witness :
    PyExn.className (PyExn.padzError
      (Json.str "padz command not found. Please ensure padz is installed and in PATH"))
      = "PadzError" :=
  claim6_exec_failures_are_padzerror [] none (fun _ _ => SpawnOutcome.fileNotFound)
    (PyExn.padzError
      (Json.str "padz command not found. Please ensure padz is installed and in PATH")) rfl

/-- Claim C7: create with empty content fails before any subprocess is
spawned: the result is the empty-content error and the spawn list is empty,
for every subprocess environment. -/
theorem claim7_create_empty_content_fails_fast (run : Runner) :
    (PadzClient.create run "").1 = Except.error (PyExn.valueError "Content cannot be empty")
    ∧ (PadzClient.create run "").2 = [] :=
  ⟨rfl, rfl⟩

/-- Claim C8: a Scratch built from the round-trip dictionary carries the
timestamp 2024-01-01T00:00:00 at UTC offset zero, and the trailing Z marker
is normalized to a +00:00 offset by the replace step before parsing. -/
theorem claim8_scratch_timestamp_roundtrip :
    Scratch.from_dict (Json.obj
        [("id", Json.str "a1"), ("project", Json.str "demo"),
         ("title", Json.str "note"), ("created_at", Json.str "2024-01-01T00:00:00Z")])
      = Except.ok (Scratch.mk (Json.str "a1") (Json.str "demo") (Json.str "note")
          (PyDatetime.mk 2024 1 1 0 0 0 0 (some 0)))
    ∧ pyStrReplace "2024-01-01T00:00:00Z" "Z" "+00:00" = "2024-01-01T00:00:00+00:00" :=
  ⟨rfl, rfl⟩

/-- Claim C10: an output-parsing operation (here create) on exit code 0 with
non-JSON stdout raises JSONDecodeError, an exception class that is not the
domain error: the success-path decode after _exec is not translated into
PadzError. -/
theorem claim10_success_path_decode_error_not_domain :
    (PadzClient.create (fun _ _ => SpawnOutcome.completed 0 "not json" "") "hello").1
      = Except.error (PyExn.jsonDecodeError "Expecting value")
    ∧ PyExn.className (PyExn.jsonDecodeError "Expecting value") ≠ "PadzError" :=
  ⟨rfl, by decide⟩

/-- A list is an infix of any list that extends it on both sides. -/
theorem isInfix_middle (l pre post : List String) : List.IsInfix l (pre ++ l ++ post) :=
  ⟨pre, post, rfl⟩

/-- Claim C9: every spawn performed by any of the ten operations carries the
machine-readable output flag pair --format json in its command vector, and
standard input is supplied only by create, with the raw content and no
positional argument (its command vector is exactly the executable plus the
format flag); every other operation spawns with no stdin text. -/
theorem claim9_format_flag_and_stdin_discipline (run : Runner) :
    (∀ (content : String) (c : SpawnCall), c ∈ (PadzClient.create run content).2 →
        List.IsInfix ["--format", "json"] c.cmd
          ∧ c.cmd = ["padz", "--format", "json"] ∧ c.input = some content)
    ∧ (∀ (a g : Bool) (c : SpawnCall), c ∈ (PadzClient.list run a g).2 →
        List.IsInfix ["--format", "json"] c.cmd ∧ c.input = none)
    ∧ (∀ (i : Int) (a g : Bool) (c : SpawnCall), c ∈ (PadzClient.view run i a g).2 →
        List.IsInfix ["--format", "json"] c.cmd ∧ c.input = none)
    ∧ (∀ (i : Int) (a : Bool) (c : SpawnCall), c ∈ (PadzClient.open_ run i a).2 →
        List.IsInfix ["--format", "json"] c.cmd ∧ c.input = none)
    ∧ (∀ (i : Int) (a g : Bool) (lines : Int) (c : SpawnCall),
          c ∈ (PadzClient.peek run i a g lines).2 →
        List.IsInfix ["--format", "json"] c.cmd ∧ c.input = none)
    ∧ (∀ (i : Int) (a : Bool) (c : SpawnCall), c ∈ (PadzClient.delete run i a).2 →
        List.IsInfix ["--format", "json"] c.cmd ∧ c.input = none)
    ∧ (∀ (i : Int) (a : Bool) (c : SpawnCall), c ∈ (PadzClient.path run i a).2 →
        List.IsInfix ["--format", "json"] c.cmd ∧ c.input = none)
    ∧ (∀ (term : String) (a g : Bool) (c : SpawnCall), c ∈ (PadzClient.search run term a g).2 →
        List.IsInfix ["--format", "json"] c.cmd ∧ c.input = none)
    ∧ (∀ (days : Int) (c : SpawnCall), c ∈ (PadzClient.cleanup run days).2 →
        List.IsInfix ["--format", "json"] c.cmd ∧ c.input = none)
    ∧ (∀ (a y : Bool) (c : SpawnCall), c ∈ (PadzClient.nuke run a y).2 →
        List.IsInfix ["--format", "json"] c.cmd ∧ c.input = none) := by
  refine ⟨?_, ?_, ?_, ?_, ?_, ?_, ?_, ?_, ?_, ?_⟩
  · intro content c hc
    by_cases hcon : content = ""
    · subst hcon
      simp [PadzClient.create] at hc
    · simp [PadzClient.create, if_neg hcon, PadzClient._exec] at hc
      subst hc
      exact ⟨isInfix_middle _ ["padz"] [], rfl, rfl⟩
  · intro a g c hc
    cases a <;> cases g <;> simp [PadzClient.list, PadzClient._exec] at hc <;> subst hc
    · exact ⟨isInfix_middle _ ["padz", "ls"] [], rfl⟩
    · exact ⟨isInfix_middle _ ["padz", "ls"] ["--global"], rfl⟩
    · exact ⟨isInfix_middle _ ["padz", "ls"] ["--all"], rfl⟩
    · exact ⟨isInfix_middle _ ["padz", "ls"] ["--all", "--global"], rfl⟩
  · intro i a g c hc
    cases a <;> cases g <;> simp [PadzClient.view, PadzClient._exec] at hc <;> subst hc
    · exact ⟨isInfix_middle _ ["padz", "view", toString i] [], rfl⟩
    · exact ⟨isInfix_middle _ ["padz", "view", toString i] ["--global"], rfl⟩
    · exact ⟨isInfix_middle _ ["padz", "view", toString i] ["--all"], rfl⟩
    · exact ⟨isInfix_middle _ ["padz", "view", toString i] ["--all", "--global"], rfl⟩
  · intro i a c hc
    cases a <;> simp [PadzClient.open_, PadzClient._exec] at hc <;> subst hc
    · exact ⟨isInfix_middle _ ["padz", "open", toString i] [], rfl⟩
    · exact ⟨isInfix_middle _ ["padz", "open", toString i] ["--all"], rfl⟩
  · intro i a g lines c hc
    cases a <;> cases g <;> simp [PadzClient.peek, PadzClient._exec] at hc <;> subst hc
    · exact ⟨isInfix_middle _ ["padz", "peek", toString i] ["--lines", toString lines], rfl⟩
    · exact ⟨isInfix_middle _ ["padz", "peek", toString i]
        ["--lines", toString lines, "--global"], rfl⟩
    · exact ⟨isInfix_middle _ ["padz", "peek", toString i]
        ["--lines", toString lines, "--all"], rfl⟩
    · exact ⟨isInfix_middle _ ["padz", "peek", toString i]
        ["--lines", toString lines, "--all", "--global"], rfl⟩
  · intro i a c hc
    cases a <;> simp [PadzClient.delete, PadzClient._exec] at hc <;> subst hc
    · exact ⟨isInfix_middle _ ["padz", "delete", toString i] [], rfl⟩
    · exact ⟨isInfix_middle _ ["padz", "delete", toString i] ["--all"], rfl⟩
  · intro i a c hc
    cases a <;> simp [PadzClient.path, PadzClient._exec] at hc <;> subst hc
    · exact ⟨isInfix_middle _ ["padz", "path", toString i] [], rfl⟩
    · exact ⟨isInfix_middle _ ["padz", "path", toString i] ["--all"], rfl⟩
  · intro term a g c hc
    cases a <;> cases g <;> simp [PadzClient.search, PadzClient._exec] at hc <;> subst hc
    · exact ⟨isInfix_middle _ ["padz", "search", term] [], rfl⟩
    · exact ⟨isInfix_middle _ ["padz", "search", term] ["--global"], rfl⟩
    · exact ⟨isInfix_middle _ ["padz", "search", term] ["--all"], rfl⟩
    · exact ⟨isInfix_middle _ ["padz", "search", term] ["--all", "--global"], rfl⟩
  · intro days c hc
    simp [PadzClient.cleanup, PadzClient._exec] at hc
    subst hc
    exact ⟨isInfix_middle _ ["padz", "cleanup"] ["--days", toString days], rfl⟩
  · intro a y c hc
    cases y
    · simp [PadzClient.nuke] at hc
    · cases a <;> simp [PadzClient.nuke, PadzClient._exec] at hc <;> subst hc
      · exact ⟨isInfix_middle _ ["padz", "nuke"] ["--yes"], rfl⟩
      · exact ⟨isInfix_middle _ ["padz", "nuke"] ["--yes", "--all"], rfl⟩

/-- Witness for claim C9 on a concrete cleanup spawn and a concrete create
spawn. -/
theorem claim9_format_flag_and_stdin_discipline_witness :
    (List.IsInfix ["--format", "json"] ["padz", "cleanup", "--format", "json", "--days", "30"]
      ∧ (SpawnCall.mk ["padz", "cleanup", "--format", "json", "--days", "30"] none).input = none)
    ∧ (List.IsInfix ["--format", "json"] ["padz", "--format", "json"]
      ∧ (SpawnCall.mk ["padz", "--format", "json"] (some "hello")).cmd
          = ["padz", "--format", "json"]
      ∧ (SpawnCall.mk ["padz", "--format", "json"] (some "hello")).input = some "hello") :=
  ⟨(claim9_format_flag_and_stdin_discipline
      (fun _ _ => SpawnOutcome.completed 0 "" "")).2.2.2.2.2.2.2.2.1 30
      (SpawnCall.mk ["padz", "cleanup", "--format", "json", "--days", "30"] none)
      (List.mem_singleton.mpr rfl),
   (claim9_format_flag_and_stdin_discipline
      (fun _ _ => SpawnOutcome.completed 0 "" "")).1 "hello"
      (SpawnCall.mk ["padz", "--format", "json"] (some "hello"))
      (List.mem_singleton.mpr rfl)⟩
